import Mathlib

/-!
Verification of the AVNC native core (app/src/main/cpp) against its
natural-language specification.

The development shallowly embeds the C++ code:
- Cursor.h: the Cursor struct, updateCursor, newCursor, freeCursor and the
  built-in default cursor data.
- native-vnc.cpp: errnoToStr, onMallocFrameBuffer, the serverPort
  normalization in nativeInit, and nativeProcessServerMessage.

Machine bytes are modelled as Nat values below 256, byte buffers as
List Nat, and a C pointer that may be NULL as an Option. malloc success or
failure is passed in as an explicit Bool, since the allocator is external
to the program. External library functions (strerror, gai_strerror,
WaitForMessage, HandleRFBServerMessage) are passed in as parameters.
-/

/-! ## Cursor model (Cursor.h) -/

/-- Bytes per pixel; the source supports only 4-byte pixels
(PixelBytes constant in Cursor.h). -/
def PixelBytes : Nat := 4

/-- The Cursor struct of Cursor.h: an owned byte buffer (NULL modelled as
none), dimensions and hotspot. The uint16_t fields are modelled as Nat. -/
structure Cursor where
  buffer : Option (List Nat)
  width : Nat
  height : Nat
  xHot : Nat
  yHot : Nat
  deriving DecidableEq

/-- The alpha loop of updateCursor: for i = 0 .. n-1 the byte at index
PixelBytes * i + 3 is set to 0xff when mask i is nonzero and to 0
otherwise. The recursion unrolls the loop from the last iteration. -/
def setAlphaLoop (mask : Nat → Nat) : Nat → List Nat → List Nat
  | 0, buf => buf
  | i + 1, buf =>
      (setAlphaLoop mask i buf).set (PixelBytes * i + 3)
        (if mask i ≠ 0 then 0xff else 0)

/-- updateCursor of Cursor.h. The old buffer is freed unconditionally
first. Then a buffer of width * height * PixelBytes bytes is allocated
(allocOk says whether malloc succeeds); on failure the function returns at
once, leaving the freed buffer slot NULL and every other field untouched.
On success the source bytes are copied verbatim (memcpy), the dimension and
hotspot fields are stored, and the alpha loop rewrites every fourth byte
from the mask. The source pixel bytes and the mask are modelled as
functions from index to byte, standing for the caller-owned C arrays. -/
def updateCursor (cursor : Cursor) (allocOk : Bool) (buffer mask : Nat → Nat)
    (width height xHot yHot : Nat) : Cursor :=
  let pixelCount := width * height
  let bufferSize := pixelCount * PixelBytes
  if allocOk then
    { buffer := some (setAlphaLoop mask pixelCount ((List.range bufferSize).map buffer)),
      width := width, height := height, xHot := xHot, yHot := yHot }
  else
    { cursor with buffer := none }

/-- Width of the built-in default cursor (Cursor.h). -/
def DefaultCursorWidth : Nat := 10

/-- Height of the built-in default cursor (Cursor.h). -/
def DefaultCursorHeight : Nat := 16

/-- Hotspot x of the built-in default cursor (Cursor.h). -/
def DefaultCursorXHot : Nat := 1

/-- Hotspot y of the built-in default cursor (Cursor.h). -/
def DefaultCursorYHot : Nat := 1

/-- The default cursor pixel data of Cursor.h: 160 uint32 values. -/
def DefaultCursorBuffer : List Nat :=
  [0, 0, 0, 0, 0, 0, 0, 0, 0, 0, 0, 0x00FFFFFF,
   0, 0, 0, 0, 0, 0, 0, 0, 0, 0x00FFFFFF, 0x00FFFFFF, 0,
   0, 0, 0, 0, 0, 0, 0, 0x00FFFFFF, 0x00FFFFFF, 0x00FFFFFF, 0, 0,
   0, 0, 0, 0, 0, 0x00FFFFFF, 0x00FFFFFF, 0x00FFFFFF, 0x00FFFFFF, 0, 0, 0,
   0, 0, 0, 0x00FFFFFF, 0x00FFFFFF, 0x00FFFFFF, 0x00FFFFFF, 0x00FFFFFF, 0, 0, 0, 0,
   0, 0x00FFFFFF, 0x00FFFFFF, 0x00FFFFFF, 0x00FFFFFF, 0x00FFFFFF, 0x00FFFFFF, 0, 0, 0, 0, 0x00FFFFFF,
   0x00FFFFFF, 0x00FFFFFF, 0x00FFFFFF, 0x00FFFFFF, 0x00FFFFFF, 0x00FFFFFF, 0, 0, 0, 0x00FFFFFF, 0x00FFFFFF, 0x00FFFFFF,
   0x00FFFFFF, 0x00FFFFFF, 0x00FFFFFF, 0x00FFFFFF, 0x00FFFFFF, 0, 0, 0x00FFFFFF, 0x00FFFFFF, 0x00FFFFFF, 0x00FFFFFF, 0x00FFFFFF,
   0, 0, 0, 0, 0, 0x00FFFFFF, 0x00FFFFFF, 0, 0x00FFFFFF, 0x00FFFFFF, 0, 0,
   0, 0, 0, 0x00FFFFFF, 0, 0, 0, 0x00FFFFFF, 0x00FFFFFF, 0, 0, 0,
   0, 0, 0, 0, 0, 0x00FFFFFF, 0x00FFFFFF, 0, 0, 0, 0, 0,
   0, 0, 0, 0, 0x00FFFFFF, 0x00FFFFFF, 0, 0, 0, 0, 0, 0,
   0, 0, 0x00FFFFFF, 0x00FFFFFF, 0, 0, 0, 0, 0, 0, 0, 0,
   0, 0, 0, 0]

/-- The default cursor mask of Cursor.h: 160 one-byte flags. -/
def DefaultCursorMask : List Nat :=
  [1, 1, 0, 0, 0, 0, 0, 0, 0, 0, 1, 1, 1, 0, 0, 0, 0, 0, 0, 0,
   1, 1, 1, 1, 0, 0, 0, 0, 0, 0, 1, 1, 1, 1, 1, 0, 0, 0, 0, 0,
   1, 1, 1, 1, 1, 1, 0, 0, 0, 0, 1, 1, 1, 1, 1, 1, 1, 0, 0, 0,
   1, 1, 1, 1, 1, 1, 1, 1, 0, 0, 1, 1, 1, 1, 1, 1, 1, 1, 1, 0,
   1, 1, 1, 1, 1, 1, 1, 1, 1, 1, 1, 1, 1, 1, 1, 1, 1, 1, 1, 1,
   1, 1, 1, 1, 1, 1, 1, 0, 0, 0, 1, 1, 1, 0, 1, 1, 1, 1, 0, 0,
   1, 1, 0, 0, 1, 1, 1, 1, 0, 0, 0, 0, 0, 0, 0, 1, 1, 1, 1, 0,
   0, 0, 0, 0, 0, 1, 1, 1, 1, 0, 0, 0, 0, 0, 0, 0, 1, 1, 0, 0]

/-- Byte view of DefaultCursorBuffer, modelling the reinterpret_cast of the
uint32 array to a byte pointer in newCursor. Android is little-endian, so
byte j is byte j % 4 of word j / 4. -/
def defaultCursorBytes (j : Nat) : Nat :=
  DefaultCursorBuffer.getD (j / 4) 0 / 2 ^ (8 * (j % 4)) % 256

/-- The default cursor mask viewed as a byte function, standing for the C
array decay of DefaultCursorMask. -/
def defaultCursorMaskFn (i : Nat) : Nat := DefaultCursorMask.getD i 0

/-- The Cursor value right after memset(cursor, 0, sizeof(Cursor)) in
newCursor: every field zero, the buffer pointer NULL. -/
def newCursorZeroed : Cursor := ⟨none, 0, 0, 0, 0⟩

/-- newCursor of Cursor.h: malloc a Cursor struct (allocStructOk), zero it
with memset, then run updateCursor with the default data (the buffer malloc
inside updateCursor succeeding when allocBufferOk). Returns none when the
struct malloc fails, matching the NULL return. -/
def newCursor (allocStructOk allocBufferOk : Bool) : Option Cursor :=
  if allocStructOk then
    some (updateCursor newCursorZeroed allocBufferOk defaultCursorBytes
      defaultCursorMaskFn DefaultCursorWidth DefaultCursorHeight
      DefaultCursorXHot DefaultCursorYHot)
  else none

/-- The pointer value handed to the unconditional free of the previous
buffer at the top of updateCursor, for a given pre-state. -/
def updateCursorFreeArg (cursor : Cursor) : Option (List Nat) := cursor.buffer

/-- Argument of one free() call: NULL, a byte buffer, or the Cursor struct
itself. -/
inductive FreeArg where
  | nullPtr : FreeArg
  | bufferPtr : List Nat → FreeArg
  | structPtr : Cursor → FreeArg
  deriving DecidableEq

/-- The sequence of free() calls freeCursor performs, with the argument of
each call. For a NULL cursor the guard skips the buffer free and the final
free(cursor) receives NULL; otherwise the buffer (possibly NULL) and then
the struct are freed. -/
def freeCursorCalls : Option Cursor → List FreeArg
  | none => [FreeArg.nullPtr]
  | some c =>
      [(match c.buffer with
        | none => FreeArg.nullPtr
        | some b => FreeArg.bufferPtr b), FreeArg.structPtr c]

/-! ## errno classification (native-vnc.cpp, errnoToStr) -/

/-- Linux errno value ENETDOWN. -/
def ENETDOWN : Int := 100

/-- Linux errno value ENETRESET. -/
def ENETRESET : Int := 102

/-- Linux errno value ENETUNREACH. -/
def ENETUNREACH : Int := 101

/-- Linux errno value ECONNABORTED. -/
def ECONNABORTED : Int := 103

/-- Linux errno value EHOSTDOWN. -/
def EHOSTDOWN : Int := 112

/-- Linux errno value EHOSTUNREACH. -/
def EHOSTUNREACH : Int := 113

/-- Linux errno value ETIMEDOUT. -/
def ETIMEDOUT : Int := 110

/-- Linux errno value ENOMEM. -/
def ENOMEM : Int := 12

/-- Linux errno value EPROTO. -/
def EPROTO : Int := 71

/-- Linux errno value of the I/O error code named E, I, O in C headers
(value 5). -/
def EIOerr : Int := 5

/-- Linux errno value ECONNREFUSED. -/
def ECONNREFUSED : Int := 111

/-- Linux errno value ECONNRESET. -/
def ECONNRESET : Int := 104

/-- Linux errno value EACCES. -/
def EACCES : Int := 13

/-- Linux errno value EINTR. -/
def EINTR : Int := 4

/-- Linux errno value EAGAIN. -/
def EAGAIN : Int := 11

/-- The errno values of the strerror group of the switch in errnoToStr. -/
def strerrorGroup : List Int :=
  [ENETDOWN, ENETRESET, ENETUNREACH, ECONNABORTED, EHOSTDOWN, EHOSTUNREACH,
   ETIMEDOUT, ENOMEM, EPROTO, EIOerr]

/-- errnoToStr of native-vnc.cpp. Values below -1000 carry a getaddrinfo
error (LibVNC patch) and are described through gai_strerror; the switch
maps a fixed set of network errno values to strerror text or to one of
three literal messages; every other value falls to the default branch,
which only logs and returns the empty string. gaiStrerror and strerror are
the external C library functions, passed in as parameters. -/
def errnoToStr (gaiStrerror strerror : Int → String) (e : Int) : String :=
  if e < -1000 then gaiStrerror (-e - 1000)
  else if e ∈ strerrorGroup then strerror e
  else if e = ECONNREFUSED then
    "Connection refused! Server may be down or running on different port"
  else if e = ECONNRESET then "Connection closed by server"
  else if e = EACCES then "Authentication failed"
  else ""

/-! ## Framebuffer allocation (native-vnc.cpp, onMallocFrameBuffer) -/

/-- The framebuffer state protected by fbMutex: the buffer pointer (NULL as
none) and the published real dimensions fbRealWidth / fbRealHeight. -/
structure FbState where
  frameBuffer : Option (List Nat)
  fbRealWidth : Nat
  fbRealHeight : Nat
  deriving DecidableEq

/-- Result of the onMallocFrameBuffer callback: the framebuffer state after
the call, the rfbBool return value (FALSE aborts the connection in the
external protocol engine), and the errno value stored, if any. -/
structure MallocFbResult where
  state : FbState
  ok : Bool
  errnoSet : Option Int
  deriving DecidableEq

/-- SIZE_MAX of the LP64 Android allocation platform. -/
def SIZE_MAX64 : Nat := 2 ^ 64 - 1

/-- onMallocFrameBuffer of native-vnc.cpp. allocSize is the uint64 product
width * height * bitsPerPixel / 8 (no uint64 overflow occurs for protocol
dimensions, so Nat arithmetic is exact). If allocSize reaches sizeMax
(SIZE_MAX of the platform) the callback stores EPROTO in errno and returns
FALSE without touching any state. Otherwise, under the lock, the old buffer
is freed and a new one is allocated (allocOk tells whether malloc
succeeds): on success the real dimensions are published and the buffer is
zero-filled by memset; on failure the published dimensions become 0 and, after
unlocking, errno is set to ENOMEM and FALSE is returned. -/
def onMallocFrameBuffer (st : FbState) (width height bitsPerPixel sizeMax : Nat)
    (allocOk : Bool) : MallocFbResult :=
  let allocSize := width * height * bitsPerPixel / 8
  if sizeMax ≤ allocSize then
    ⟨st, false, some EPROTO⟩
  else if allocOk then
    ⟨⟨some (List.replicate allocSize 0), width, height⟩, true, none⟩
  else
    ⟨⟨none, 0, 0⟩, false, some ENOMEM⟩

/-! ## Port normalization and message processing (native-vnc.cpp) -/

/-- The serverPort computation of nativeInit: ports below 100 are treated
as a VNC display number and biased by 5900, larger values are used as
given. -/
def normalizeServerPort (port : Int) : Int :=
  if port < 100 then port + 5900 else port

/-- nativeProcessServerMessage of native-vnc.cpp: waitResult is the return
value of WaitForMessage (negative on error, 0 on timeout, positive when
data is ready) and handleResult the rfbBool returned by
HandleRFBServerMessage, which runs only when waitResult is non-negative.
The JNI function returns JNI_TRUE exactly when both succeed, JNI_FALSE in
every other case. -/
def nativeProcessServerMessage (waitResult : Int) (handleResult : Bool) : Bool :=
  if 0 ≤ waitResult then handleResult else false

/-! ## Lemmas about the alpha loop -/

/-- The alpha loop never changes the length of the buffer. -/
theorem setAlphaLoop_length (mask : Nat → Nat) (n : Nat) (buf : List Nat) :
    (setAlphaLoop mask n buf).length = buf.length := by
  induction n with
  | zero => rfl
  | succ i ih => simp [setAlphaLoop, List.length_set, ih]

/-- Bytes whose index is not 3 modulo 4 are untouched by the alpha loop. -/
theorem setAlphaLoop_getElem_not_alpha (mask : Nat → Nat) (n : Nat) (buf : List Nat)
    (j : Nat) (hj : j % 4 ≠ 3) :
    (setAlphaLoop mask n buf)[j]? = buf[j]? := by
  induction n with
  | zero => rfl
  | succ i ih =>
      have hne : PixelBytes * i + 3 ≠ j := by
        simp only [PixelBytes]
        omega
      simp only [setAlphaLoop]
      rw [List.getElem?_set_ne hne, ih]

/-- Inside the processed range, the alpha byte of pixel i is 0xff exactly
when the mask entry is nonzero. -/
theorem setAlphaLoop_getElem_alpha (mask : Nat → Nat) (n : Nat) (buf : List Nat)
    (hlen : PixelBytes * n ≤ buf.length) (i : Nat) (hi : i < n) :
    (setAlphaLoop mask n buf)[PixelBytes * i + 3]? =
      some (if mask i ≠ 0 then 0xff else 0) := by
  induction n with
  | zero => omega
  | succ k ih =>
      simp only [setAlphaLoop]
      rcases Nat.lt_succ_iff_lt_or_eq.mp hi with h | h
      · have hne : PixelBytes * k + 3 ≠ PixelBytes * i + 3 := by
          simp only [PixelBytes]
          omega
        rw [List.getElem?_set_ne hne]
        refine ih ?_ h
        refine le_trans ?_ hlen
        simp only [PixelBytes]
        omega
      · subst h
        refine List.getElem?_set_eq_of_lt _ ?_
        rw [setAlphaLoop_length]
        simp only [PixelBytes] at hlen ⊢
        omega

/-- Characterization of a successful updateCursor call: the new buffer has
exactly width * height * PixelBytes bytes, every alpha byte follows the
mask, and every other byte is copied verbatim from the source buffer. -/
theorem updateCursor_success_getElem (c : Cursor) (buffer mask : Nat → Nat)
    (width height xHot yHot : Nat) :
    ∃ buf, (updateCursor c true buffer mask width height xHot yHot).buffer = some buf ∧
      buf.length = width * height * PixelBytes ∧
      (∀ i, i < width * height →
        buf[PixelBytes * i + 3]? = some (if mask i ≠ 0 then 0xff else 0)) ∧
      (∀ j, j < width * height * PixelBytes → j % 4 ≠ 3 →
        buf[j]? = some (buffer j)) := by
  refine ⟨setAlphaLoop mask (width * height)
      ((List.range (width * height * PixelBytes)).map buffer), rfl, ?_, ?_, ?_⟩
  · rw [setAlphaLoop_length, List.length_map, List.length_range]
  · intro i hi
    refine setAlphaLoop_getElem_alpha mask (width * height) _ ?_ i hi
    rw [List.length_map, List.length_range]
    exact le_of_eq (Nat.mul_comm PixelBytes (width * height))
  · intro j hj hmod
    rw [setAlphaLoop_getElem_not_alpha mask _ _ j hmod, List.getElem?_map,
      List.getElem?_range hj]
    rfl

/-! ## Claims about the cursor store -/

/-- Claim C5: for every cursor update with a 4-byte-per-pixel source buffer
and a mask of width * height entries that succeeds, every pixel i of the
resulting buffer has alpha byte 0xff when mask i is nonzero and 0 when it
is zero, and its three RGB bytes are copied verbatim from the source
buffer. -/
theorem updateCursor_mask_rule (c : Cursor) (buffer mask : Nat → Nat)
    (width height xHot yHot i : Nat) (hi : i < width * height) :
    ∃ buf, (updateCursor c true buffer mask width height xHot yHot).buffer = some buf ∧
      buf[PixelBytes * i + 3]? = some (if mask i ≠ 0 then 0xff else 0) ∧
      buf[PixelBytes * i]? = some (buffer (PixelBytes * i)) ∧
      buf[PixelBytes * i + 1]? = some (buffer (PixelBytes * i + 1)) ∧
      buf[PixelBytes * i + 2]? = some (buffer (PixelBytes * i + 2)) := by
  obtain ⟨buf, hbuf, hlen, halpha, hrgb⟩ :=
    updateCursor_success_getElem c buffer mask width height xHot yHot
  have hbound : ∀ k, k < PixelBytes → PixelBytes * i + k < width * height * PixelBytes := by
    intro k hk
    calc PixelBytes * i + k < PixelBytes * (i + 1) := by
          simp only [PixelBytes] at hk ⊢
          omega
      _ ≤ PixelBytes * (width * height) := Nat.mul_le_mul_left _ hi
      _ = width * height * PixelBytes := Nat.mul_comm _ _
  refine ⟨buf, hbuf, halpha i hi, ?_, ?_, ?_⟩
  · refine hrgb _ (by simpa using hbound 0 (by simp [PixelBytes])) ?_
    simp only [PixelBytes]
    omega
  · refine hrgb _ (hbound 1 (by simp [PixelBytes])) ?_
    simp only [PixelBytes]
    omega
  · refine hrgb _ (hbound 2 (by simp [PixelBytes])) ?_
    simp only [PixelBytes]
    omega

/-- Witness for claim C5 at a concrete input: a 1 by 2 cursor whose source
bytes are the identity and whose mask selects pixel 1 only. -/
theorem updateCursor_mask_rule_witness :
    ∃ buf, (updateCursor newCursorZeroed true (fun j => j % 256) (fun k => k % 2)
        1 2 0 0).buffer = some buf ∧
      buf[PixelBytes * 1 + 3]? = some (if (1 : Nat) % 2 ≠ 0 then 0xff else 0) ∧
      buf[PixelBytes * 1]? = some ((PixelBytes * 1) % 256) ∧
      buf[PixelBytes * 1 + 1]? = some ((PixelBytes * 1 + 1) % 256) ∧
      buf[PixelBytes * 1 + 2]? = some ((PixelBytes * 1 + 2) % 256) :=
  updateCursor_mask_rule newCursorZeroed (fun j => j % 256) (fun k => k % 2)
    1 2 0 0 1 (by decide)

/-- Claim C1 counterexample: when the buffer allocation inside updateCursor
fails, the previously published cursor buffer does not remain readable: the
pre-state holds the bytes 9, 9, 9, 9, and after the failed call the buffer
pointer is NULL, because the old buffer was freed before the allocation was
attempted. -/
theorem updateCursor_alloc_failure_loses_buffer :
    (Cursor.mk (some [9, 9, 9, 9]) 1 1 0 0).buffer = some [9, 9, 9, 9] ∧
    (updateCursor (Cursor.mk (some [9, 9, 9, 9]) 1 1 0 0) false
      (fun _ => 0) (fun _ => 0) 2 2 0 0).buffer = none := by
  constructor <;> rfl

/-- Claim C1 (amended): if the allocation of the new cursor buffer fails,
updateCursor keeps the previous width, height and hotspot unchanged, but
the previous buffer has already been freed and the buffer field is NULL
afterwards; the failure is non-fatal, the function simply returns without
propagating any error. -/
theorem updateCursor_alloc_failure (c : Cursor) (buffer mask : Nat → Nat)
    (width height xHot yHot : Nat) :
    (updateCursor c false buffer mask width height xHot yHot).buffer = none ∧
    (updateCursor c false buffer mask width height xHot yHot).width = c.width ∧
    (updateCursor c false buffer mask width height xHot yHot).height = c.height ∧
    (updateCursor c false buffer mask width height xHot yHot).xHot = c.xHot ∧
    (updateCursor c false buffer mask width height xHot yHot).yHot = c.yHot := by
  simp [updateCursor]

/-- Claim C8: a freshly constructed cursor (newCursor, with both
allocations succeeding) exposes the built-in default cursor before any
update call: width 10, height 16, hotspot (1, 1), a non-null 640 byte
buffer whose alpha bytes follow the default mask and whose other bytes are
the default bitmap bytes. -/
theorem newCursor_default :
    ∃ c, newCursor true true = some c ∧ c.width = 10 ∧ c.height = 16 ∧
      c.xHot = 1 ∧ c.yHot = 1 ∧
      ∃ buf, c.buffer = some buf ∧ buf.length = 640 ∧
        (∀ i, i < 160 →
          buf[PixelBytes * i + 3]? = some (if defaultCursorMaskFn i ≠ 0 then 0xff else 0)) ∧
        (∀ j, j < 640 → j % 4 ≠ 3 → buf[j]? = some (defaultCursorBytes j)) := by
  obtain ⟨buf, hbuf, hlen, halpha, hrgb⟩ :=
    updateCursor_success_getElem newCursorZeroed defaultCursorBytes defaultCursorMaskFn
      DefaultCursorWidth DefaultCursorHeight DefaultCursorXHot DefaultCursorYHot
  refine ⟨updateCursor newCursorZeroed true defaultCursorBytes defaultCursorMaskFn
      DefaultCursorWidth DefaultCursorHeight DefaultCursorXHot DefaultCursorYHot,
    rfl, rfl, rfl, rfl, rfl, buf, hbuf, ?_, ?_, ?_⟩
  · exact hlen
  · intro i hi
    exact halpha i hi
  · intro j hj hmod
    exact hrgb j hj hmod

/-- Claim C10: construction and destruction never free uninitialized
memory. After the memset in newCursor the cursor passed to updateCursor has
a NULL buffer field, so the unconditional free of the previous buffer at
the top of updateCursor receives NULL on first use, a defined no-op; and
freeCursor applied to a NULL cursor performs only free(NULL), again a
defined no-op. -/
theorem cursor_free_null_safety :
    updateCursorFreeArg newCursorZeroed = none ∧
    freeCursorCalls none = [FreeArg.nullPtr] :=
  ⟨rfl, rfl⟩

/-! ## Claims about the connection manager surface -/

/-- Claim C3 counterexample: the JNI return value of
nativeProcessServerMessage is a single boolean, so a fatal wait error
(WaitForMessage returning -1) and a timeout round with no progress
(WaitForMessage returning 0 and the handler reporting FALSE) yield the very
same value JNI_FALSE; the caller cannot tell a timeout apart from a fatal
failure from the returned value alone. -/
theorem nativeProcessServerMessage_conflates :
    nativeProcessServerMessage (-1) true = nativeProcessServerMessage 0 false ∧
    nativeProcessServerMessage 0 false = false := by
  constructor <;> decide

/-- Claim C3 (amended): nativeProcessServerMessage returns a two-valued
result: JNI_TRUE exactly when the wait did not error and the handler made
progress, JNI_FALSE otherwise; timeout and fatal error are conflated into
JNI_FALSE. -/
theorem nativeProcessServerMessage_boolean (waitResult : Int) (handleResult : Bool) :
    nativeProcessServerMessage waitResult handleResult = true ↔
      0 ≤ waitResult ∧ handleResult = true := by
  unfold nativeProcessServerMessage
  split <;> simp_all

/-- Claim C6: nativeInit normalizes the port argument: a port strictly
below 100 is used as a VNC display offset and biased by 5900, any port of
100 or more is used verbatim. -/
theorem normalizeServerPort_rule (port : Int) :
    (port < 100 → normalizeServerPort port = port + 5900) ∧
    (100 ≤ port → normalizeServerPort port = port) := by
  unfold normalizeServerPort
  constructor
  · intro h
    rw [if_pos h]
  · intro h
    rw [if_neg (not_lt.mpr h)]

/-- Witness for claim C6: port 1 resolves to 5901 and port 5950 is used
verbatim. -/
theorem normalizeServerPort_rule_witness :
    normalizeServerPort 1 = 5901 ∧ normalizeServerPort 5950 = 5950 := by
  constructor
  · have h := (normalizeServerPort_rule 1).1 (by decide)
    simpa using h
  · exact (normalizeServerPort_rule 5950).2 (by decide)

/-! ## Claims about framebuffer reallocation -/

/-- Claim C4: when the announced framebuffer dimensions make the byte size
reach the platform size limit, onMallocFrameBuffer fails with EPROTO (the
protocol size error), returns FALSE (fatal: the external engine aborts the
connection), and performs no mutation at all: buffer pointer and published
dimensions stay exactly as they were. -/
theorem onMallocFrameBuffer_size_check (st : FbState)
    (width height bitsPerPixel sizeMax : Nat) (allocOk : Bool)
    (hsz : sizeMax ≤ width * height * bitsPerPixel / 8) :
    (onMallocFrameBuffer st width height bitsPerPixel sizeMax allocOk).state = st ∧
    (onMallocFrameBuffer st width height bitsPerPixel sizeMax allocOk).ok = false ∧
    (onMallocFrameBuffer st width height bitsPerPixel sizeMax allocOk).errnoSet =
      some EPROTO := by
  simp [onMallocFrameBuffer, hsz]

/-- Witness for claim C4 at a concrete oversized request: dimensions
2 to the 32 by 2 to the 32 at 32 bits per pixel overflow SIZE_MAX64, and
the previous state with a 4 byte buffer at 1 by 1 stays untouched. -/
theorem onMallocFrameBuffer_size_check_witness :
    (onMallocFrameBuffer ⟨some [0, 0, 0, 0], 1, 1⟩ (2 ^ 32) (2 ^ 32) 32
        SIZE_MAX64 true).state = ⟨some [0, 0, 0, 0], 1, 1⟩ ∧
    (onMallocFrameBuffer ⟨some [0, 0, 0, 0], 1, 1⟩ (2 ^ 32) (2 ^ 32) 32
        SIZE_MAX64 true).ok = false ∧
    (onMallocFrameBuffer ⟨some [0, 0, 0, 0], 1, 1⟩ (2 ^ 32) (2 ^ 32) 32
        SIZE_MAX64 true).errnoSet = some EPROTO :=
  onMallocFrameBuffer_size_check ⟨some [0, 0, 0, 0], 1, 1⟩ (2 ^ 32) (2 ^ 32) 32
    SIZE_MAX64 true (by norm_num [SIZE_MAX64])

/-- Claim C7: when the size check passes but the buffer allocation itself
fails, onMallocFrameBuffer publishes a zero-sized framebuffer (NULL buffer,
width 0, height 0), sets errno to ENOMEM (the allocation error) and returns
FALSE (fatal), so no reader can observe the old dimensions paired with the
missing buffer. -/
theorem onMallocFrameBuffer_alloc_failure (st : FbState)
    (width height bitsPerPixel sizeMax : Nat)
    (hsz : width * height * bitsPerPixel / 8 < sizeMax) :
    (onMallocFrameBuffer st width height bitsPerPixel sizeMax false).state =
      ⟨none, 0, 0⟩ ∧
    (onMallocFrameBuffer st width height bitsPerPixel sizeMax false).ok = false ∧
    (onMallocFrameBuffer st width height bitsPerPixel sizeMax false).errnoSet =
      some ENOMEM := by
  simp [onMallocFrameBuffer, not_le.mpr hsz]

/-- Witness for claim C7 at a concrete input: a 4 by 4 request at 32 bits
per pixel passes the size check, and a failed malloc zeroes the published
state. -/
theorem onMallocFrameBuffer_alloc_failure_witness :
    (onMallocFrameBuffer ⟨some [1, 2, 3, 4], 1, 1⟩ 4 4 32 SIZE_MAX64 false).state =
      ⟨none, 0, 0⟩ ∧
    (onMallocFrameBuffer ⟨some [1, 2, 3, 4], 1, 1⟩ 4 4 32 SIZE_MAX64 false).ok = false ∧
    (onMallocFrameBuffer ⟨some [1, 2, 3, 4], 1, 1⟩ 4 4 32 SIZE_MAX64 false).errnoSet =
      some ENOMEM :=
  onMallocFrameBuffer_alloc_failure ⟨some [1, 2, 3, 4], 1, 1⟩ 4 4 32 SIZE_MAX64
    (by norm_num [SIZE_MAX64])

/-! ## Claim about errno classification -/

/-- Claim C9: errnoToStr classifies the most recent errno: EACCES maps to
the authentication failure description, ECONNREFUSED and ECONNRESET to
their specific descriptions, the strerror group to the C library
description, values below -1000 to the address resolution description from
gai_strerror; and every errno outside this taxonomy, in particular the
transient EINTR and EAGAIN, yields the empty string. -/
theorem errnoToStr_classification (g s : Int → String) :
    errnoToStr g s EACCES = "Authentication failed" ∧
    errnoToStr g s ECONNREFUSED =
      "Connection refused! Server may be down or running on different port" ∧
    errnoToStr g s ECONNRESET = "Connection closed by server" ∧
    (∀ e : Int, e ∈ strerrorGroup → errnoToStr g s e = s e) ∧
    (∀ e : Int, e < -1000 → errnoToStr g s e = g (-e - 1000)) ∧
    (∀ e : Int, -1000 ≤ e → e ∉ strerrorGroup → e ≠ ECONNREFUSED →
      e ≠ ECONNRESET → e ≠ EACCES → errnoToStr g s e = "") ∧
    errnoToStr g s EINTR = "" ∧ errnoToStr g s EAGAIN = "" := by
  refine ⟨rfl, rfl, rfl, ?_, ?_, ?_, rfl, rfl⟩
  · intro e he
    fin_cases he <;> rfl
  · intro e he
    unfold errnoToStr
    rw [if_pos he]
  · intro e h0 h1 h2 h3 h4
    unfold errnoToStr
    rw [if_neg (by omega), if_neg h1, if_neg h2, if_neg h3, if_neg h4]

/-- Witness for claim C9 at a concrete non-taxonomy errno value 7, which
yields the empty string. -/
theorem errnoToStr_classification_witness :
    errnoToStr (fun i => toString i) (fun i => toString i) 7 = "" :=
  (errnoToStr_classification (fun i => toString i) (fun i => toString i)).2.2.2.2.2.1 7
    (by decide) (by decide) (by decide) (by decide) (by decide)

/-- Witness for the amended claim C3 at a concrete input: a successful wait
followed by a successful handler round returns JNI_TRUE. -/
theorem nativeProcessServerMessage_boolean_witness :
    nativeProcessServerMessage 1 true = true :=
  (nativeProcessServerMessage_boolean 1 true).mpr ⟨by decide, rfl⟩
